import Mathlib

/-!
Shallow embedding of the Export-To-Ghostfolio converters
(`src/converters/truewealthConverter.ts` and `src/converters/bitpandaConverter.ts`)
together with the record models from `src/models`.

Modelling conventions:

* JavaScript numbers are modelled as `Option ℚ`: `none` stands for `NaN`
  (`parseFloat` of a string with no digits), `some q` for an ordinary number.
  The converter sources never produce `Infinity`, and the exact decimal cells
  they handle are representable in `ℚ`.
* JavaScript string helpers (`toLocaleLowerCase`, `indexOf`, `split`, `trim`,
  padding with `Array(n).fill(",-").join("")`, splitting on `/\r?\n/`) are
  modelled by structurally recursive functions over `List Char` so that all
  definitions evaluate inside the kernel.
* The csv-parse library is external; `parseRecords` models it restricted to
  the exact options the two converters pass (comma delimiter, a fixed column
  list, `fromLine`, a per-column `cast`, no `relax_column_count`): `fromLine`
  is 1-based and inclusive, a record whose field count differs from the column
  count is an `Invalid Record Length` error, and a trailing run of empty lines
  is ignored.  Quoting is not modelled: the Bitpanda preprocessing step itself
  splits rows naively on `","`, and none of the provider cells are quoted.
* `dayjs` date parsing/formatting is external; the pipelines take the
  formatting function as a parameter `fmtDate` (no claim depends on its
  output beyond equality of the two dates of a reward expansion).
* The `SecurityService` collaborator is a parameter of type `Resolver`;
  `Except.error` models a thrown error, `.ok none` models "no result".
* `process.env.GHOSTFOLIO_ACCOUNT_ID` and
  `process.env.GHOSTFOLIO_BITPANDA_STAKING_REWARD_ASSET_ID` are the injected
  configuration `ConverterConfig`.
* The progress bar and `console.log` calls have no effect on the delivered
  value and are omitted; the information passed to `logQueryError` is
  recorded in the `resolutionAbort` outcome (see below).
* Calling `errorCallback e` (resp. `successCallback result`) is modelled as
  returning the corresponding `PipelineOutcome`.
-/

/- The library marks the arithmetic on `Rat` irreducible; the concrete
evaluations below need it to reduce. -/
attribute [local semireducible] Rat.add Rat.mul Rat.inv Rat.sub

/-- A JavaScript number: `none` is `NaN`, `some q` an ordinary number. -/
abbrev JsNum := Option ℚ

/-- JS `Math.abs`; `Math.abs(NaN) = NaN`. -/
def jsAbs (x : JsNum) : JsNum := x.map (fun q => |q|)

/-- Multiplication by a numeric literal; `NaN * c = NaN`. -/
def jsMul (x : JsNum) (c : ℚ) : JsNum := x.map (fun q => q * c)

/-- Division by a nonzero numeric literal; `NaN / c = NaN`. -/
def jsDivC (x : JsNum) (c : ℚ) : JsNum := x.map (fun q => q / c)

/-- JS `a || b` on strings: the empty string is falsy. -/
def jsOr (a b : String) : String := if a = "" then b else a

/-- JS `toLocaleLowerCase`/`toLowerCase` on the ASCII data these files hold. -/
def lowerStr (s : String) : String := ⟨s.data.map Char.toLower⟩

/-- Whether `pat` occurs inside `l` (JS `indexOf(pat) > -1`). -/
def infixOf (pat : List Char) : List Char → Bool
  | [] => pat.isEmpty
  | c :: rest => pat.isPrefixOf (c :: rest) || infixOf pat rest

/-- JS `s.indexOf(pat) > -1`. -/
def containsStr (s pat : String) : Bool := infixOf pat.data s.data

/-- JS `s.startsWith(pat)`. -/
def startsWithStr (s pat : String) : Bool := pat.data.isPrefixOf s.data

/-- JS `!s.trim()`: every character is whitespace. -/
def blankLine (s : String) : Bool := s.data.all Char.isWhitespace

/-- JS `s.trim()`. -/
def trimStr (s : String) : String :=
  ⟨((s.data.dropWhile Char.isWhitespace).reverse.dropWhile Char.isWhitespace).reverse⟩

/-- Split a character list at every occurrence of `sep` (JS `split(sep)`). -/
def splitOnCharList (sep : Char) : List Char → List (List Char)
  | [] => [[]]
  | c :: rest =>
    if c = sep then [] :: splitOnCharList sep rest
    else
      match splitOnCharList sep rest with
      | [] => [[c]]
      | h :: t => (c :: h) :: t

/-- JS `s.split(sep)` for a one-character separator. -/
def chSplit (sep : Char) (s : String) : List String :=
  (splitOnCharList sep s.data).map (fun l => ⟨l⟩)

/-- Collapse every `\r\n` pair into `\n`, so that splitting on `\n`
matches JS `split(/\r?\n/)`. -/
def normNewlines : List Char → List Char
  | [] => []
  | '\r' :: '\n' :: rest => '\n' :: normNewlines rest
  | c :: rest => c :: normNewlines rest

/-- JS `input.split(/\r?\n/)`. -/
def splitLines (s : String) : List String :=
  (splitOnCharList '\n' (normNewlines s.data)).map (fun l => ⟨l⟩)

/-- JS `lines.join("\n")`. -/
def joinLines (ls : List String) : String :=
  ⟨((ls.map String.data).intersperse ['\n']).flatten⟩

/-- JS `Array(n).fill(s).join("")`. -/
def repeatStr (n : Nat) (s : String) : String :=
  ⟨(List.replicate n s.data).flatten⟩

/-- Numeric value of a digit list. -/
def digitsToNat (l : List Char) : Nat :=
  l.foldl (fun a c => a * 10 + (c.toNat - 48)) 0

/-- JS `parseFloat`, restricted to the plain decimal notation appearing in
provider cells (optional sign, integer digits, optional fraction; no
exponents, no `Infinity`).  A string with no leading digits — in particular
`""`, `"-"` or an alphabetic cell — gives `NaN`. -/
def parseFloat (s : String) : JsNum :=
  let cs := s.data.dropWhile Char.isWhitespace
  let signed : ℚ × List Char :=
    match cs with
    | '-' :: r => (-1, r)
    | '+' :: r => (1, r)
    | _ => (1, cs)
  let ip := signed.2.takeWhile Char.isDigit
  let rest := signed.2.dropWhile Char.isDigit
  let fp :=
    match rest with
    | '.' :: r => r.takeWhile Char.isDigit
    | _ => []
  if ip.isEmpty && fp.isEmpty then none
  else some (signed.1 * ((digitsToNat ip : ℚ) + (digitsToNat fp : ℚ) / (10 : ℚ) ^ fp.length))

/-- A cell value after the csv-parse `cast` callback ran: either still a
string or a parsed number. -/
inductive CellVal where
  | str (v : String)
  | num (v : JsNum)
deriving DecidableEq, Repr

/-- A value as seen by Node `util/types.isNumberObject`: either a primitive
number or a boxed `new Number(...)` object.  Every value the converters store
in a record field is a primitive. -/
inductive JsNumberValue where
  | prim (n : JsNum)
  | boxed (n : JsNum)

/-- Node `util/types.isNumberObject`: `true` exactly for boxed `Number`
objects, `false` for every primitive number, `NaN` included. -/
def isNumberObject : JsNumberValue → Bool
  | .prim _ => false
  | .boxed _ => true

/-- `YahooFinanceRecord` as consumed by the converters: at least a symbol and
an optional currency. -/
structure Security where
  symbol : String
  currency : Option String
deriving DecidableEq, Repr

/-- The `SecurityService.getSecurity(isin, ticker, name, currency, progress)`
collaborator (the progress handle has no effect on the result and is
omitted).  `Except.error` models a thrown error, `.ok none` a "no result"
return. -/
abbrev Resolver :=
  Option String → Option String → Option String → Option String → Except String (Option Security)

/-- The injected environment configuration (`GHOSTFOLIO_ACCOUNT_ID`,
`GHOSTFOLIO_BITPANDA_STAKING_REWARD_ASSET_ID`). -/
structure ConverterConfig where
  accountId : String
  stakingRewardAssetId : String
deriving DecidableEq, Repr

/-- Modelled from the spec: the closed enumeration of canonical activity
kinds (spec section 3: `buy | sell | dividend | interest | fx`).  The
`GhostfolioOrderType` enum source file is not among the converter sources. -/
inductive GhostfolioOrderType where
  | buy
  | sell
  | dividend
  | interest
  | fx
deriving DecidableEq, Repr, Inhabited

/-- Modelled from the spec: indexing the `GhostfolioOrderType` enum object
with a raw string key, as both converters do via `GhostfolioOrderType[type]`.
A key outside the closed enumeration yields JS `undefined`, i.e. `none`. -/
def ghostfolioOrderTypeLookup (s : String) : Option GhostfolioOrderType :=
  if s = "buy" then some .buy
  else if s = "sell" then some .sell
  else if s = "dividend" then some .dividend
  else if s = "interest" then some .interest
  else if s = "fx" then some .fx
  else none

/-- One entry pushed onto `result.activities`. -/
structure Activity where
  accountId : String
  comment : String
  fee : JsNum
  quantity : JsNum
  type : Option GhostfolioOrderType
  unitPrice : JsNum
  currency : String
  dataSource : String
  date : String
  symbol : String
deriving DecidableEq, Repr, Inhabited

/-- The `meta` part of a `GhostfolioExport`; `date` is the `new Date()`
wall-clock value, passed in as the parameter `now`. -/
structure ExportMeta where
  date : String
  version : String
deriving DecidableEq, Repr, Inhabited

/-- The envelope handed to `successCallback`. -/
structure GhostfolioExport where
  meta : ExportMeta
  activities : List Activity
deriving DecidableEq, Repr, Inhabited

/-- The terminal outcome of one `processFileContents` run.
`parseFailed` and `resolutionAbort` model the `errorCallback` invocations
(for the TrueWealth resolver abort, `identifier` and `line` record the
arguments the code passes to `logQueryError`, and `err` the error object
forwarded to the callback); `success` models `successCallback`. -/
inductive PipelineOutcome where
  | parseFailed (msg : String)
  | resolutionAbort (identifier : String) (line : Nat) (err : String)
  | success (result : GhostfolioExport)
deriving DecidableEq, Repr, Inhabited

/-- The activities delivered through the success callback (none on failure). -/
def PipelineOutcome.deliveredActivities : PipelineOutcome → List Activity
  | .success e => e.activities
  | _ => []

def PipelineOutcome.isSuccess : PipelineOutcome → Bool
  | .success _ => true
  | _ => false

def PipelineOutcome.isResolutionAbort : PipelineOutcome → Bool
  | .resolutionAbort _ _ _ => true
  | _ => false

/-- Decidable equality for parse-stage results. -/
instance {ε α : Type} [DecidableEq ε] [DecidableEq α] : DecidableEq (Except ε α)
  | .error a, .error b =>
    if h : a = b then isTrue (by rw [h]) else isFalse (fun hab => h (Except.error.inj hab))
  | .error _, .ok _ => isFalse fun h => Except.noConfusion h
  | .ok _, .error _ => isFalse fun h => Except.noConfusion h
  | .ok a, .ok b =>
    if h : a = b then isTrue (by rw [h]) else isFalse (fun hab => h (Except.ok.inj hab))

/-- Drop the trailing run of empty lines (csv-parse tolerates a final
newline). -/
def dropTrailingBlankLines (ls : List String) : List String :=
  (ls.reverse.dropWhile (fun l => l = "")).reverse

/-- Model of the csv-parse invocation both converters use: lines strictly
before the 1-based `fromLine` are skipped, every remaining line must split
(on `","`) into exactly `ncols` fields — the length of the `columns` array —
and each such line becomes one record via `build`. -/
def parseRecords (fromLine ncols : Nat) (build : List String → α) (input : String) :
    Except String (List α) :=
  let body := dropTrailingBlankLines ((splitLines input).drop (fromLine - 1))
  if body.all (fun l => (chSplit ',' l).length = ncols) then
    .ok (body.map (fun l => build (chSplit ',' l)))
  else
    .error "Invalid Record Length"

/-- `src/models/truewealthRecord.ts`, after the `cast` callback ran: the
numeric columns hold parsed floats, `type` holds the mapped category. -/
structure TrueWealthRecord where
  date : String
  type : String
  currency : String
  price : JsNum
  shares : JsNum
  amount : JsNum
  taxes : JsNum
  fees : JsNum
  isin : String
  value : JsNum
  valueCurrency : String
  securityName : String
deriving DecidableEq, Repr, Inhabited

/-- `src/models/bitpandaRecord.ts`, after the `cast` callback ran. -/
structure BitpandaRecord where
  transactionId : String
  timestamp : String
  transactionType : String
  inOut : String
  amountFiat : JsNum
  fiat : String
  amountAsset : JsNum
  asset : String
  assetMarketPrice : JsNum
  assetMarketPriceCurrency : String
  assetClass : String
  productId : String
  fee : JsNum
  feeAsset : String
  feePercent : JsNum
  spread : JsNum
  spreadCurrency : String
  taxFiat : JsNum
deriving DecidableEq, Repr, Inhabited

namespace TrueWealth

/-- The category branch of the `cast` callback: lower-case the cell and map
by substring containment; `none` when no rule matches (the callback then
falls through). -/
def castType (v : String) : Option String :=
  let action := lowerStr v
  if containsStr action "buy" then some "buy"
  else if containsStr action "sell" then some "sell"
  else if containsStr action "dividend" then some "dividend"
  else if containsStr action "fx" then some "fx"
  else none

/-- The columns the `cast` callback parses with `parseFloat`. -/
def numericColumns : List String := ["price", "shares", "amount", "taxes", "fees", "value"]

/-- The full `cast` callback of the TrueWealth converter: the `type` column
maps through the category rules when one matches, numeric columns go through
plain `parseFloat`, everything else is returned unchanged. -/
def castCell (col v : String) : CellVal :=
  match (if col = "type" then castType v else none) with
  | some t => .str t
  | none =>
    if col ∈ numericColumns then .num (parseFloat v)
    else .str v

/-- Modelled from the spec: `AbstractConverter.processHeaders` is not among
the converter sources; Mode A header resolution reads the first line, splits
it on the delimiter and trims each token (spec section 4.1). -/
def processHeaders (input : String) : List String :=
  (chSplit ',' ((splitLines input).headD "")).map trimStr

/-- The cast cell stored under column `name` (csv-parse builds the record
object by zipping the column list with the cast fields). -/
def fieldVal (headers fields : List String) (name : String) : Option CellVal :=
  ((headers.zip fields).map (fun p => (p.1, castCell p.1 p.2))).lookup name

/-- A string-typed record field; a column absent from the header is JS
`undefined`, modelled as `""`. -/
def fieldStr (headers fields : List String) (name : String) : String :=
  match fieldVal headers fields name with
  | some (.str v) => v
  | _ => ""

/-- A number-typed record field; a column absent from the header is JS
`undefined`, which behaves as `NaN` in the arithmetic the converter does. -/
def fieldNum (headers fields : List String) (name : String) : JsNum :=
  match fieldVal headers fields name with
  | some (.num v) => v
  | _ => none

/-- One parsed CSV row as a `TrueWealthRecord`. -/
def buildRecord (headers fields : List String) : TrueWealthRecord where
  date := fieldStr headers fields "date"
  type := fieldStr headers fields "type"
  currency := fieldStr headers fields "currency"
  price := fieldNum headers fields "price"
  shares := fieldNum headers fields "shares"
  amount := fieldNum headers fields "amount"
  taxes := fieldNum headers fields "taxes"
  fees := fieldNum headers fields "fees"
  isin := fieldStr headers fields "isin"
  value := fieldNum headers fields "value"
  valueCurrency := fieldStr headers fields "valueCurrency"
  securityName := fieldStr headers fields "securityName"

/-- `TrueWealthConverter.isIgnoredRecord`. -/
def isIgnoredRecord (record : TrueWealthRecord) : Bool :=
  ["fx"].any (fun t => containsStr (lowerStr record.type) t)

/-- The `getSecurity` call the row loop makes:
`getSecurity(record.isin, null, record.securityName, record.currency, ...)`. -/
def resolveRecord (resolver : Resolver) (record : TrueWealthRecord) :
    Except String (Option Security) :=
  resolver (some record.isin) none (some record.securityName) (some record.currency)

/-- The abort data of a failed resolution: the identifier and 1-based CSV
line passed to `logQueryError` (records start on line 2, hence `idx + 2`),
and the forwarded error. -/
structure Abort where
  identifier : String
  line : Nat
  err : String
deriving DecidableEq, Repr

/-- The body of the row loop for the record at index `idx`: skip ignored
records, abort on a resolver error, skip unresolved securities, otherwise
push one activity. -/
def processRecord (cfg : ConverterConfig) (fmtDate : String → String) (resolver : Resolver)
    (idx : Nat) (record : TrueWealthRecord) : Except Abort (List Activity) :=
  if isIgnoredRecord record then .ok []
  else
    match resolveRecord resolver record with
    | .error err => .error ⟨jsOr record.isin record.securityName, idx + 2, err⟩
    | .ok none => .ok []
    | .ok (some security) =>
      let fees : JsNum :=
        if isNumberObject (.prim record.fees) = false then some 0 else record.fees
      let numberOfShares :=
        if record.type = "dividend" then (some 1 : JsNum) else jsAbs record.shares
      let assetPrice :=
        if record.type = "dividend" then jsAbs record.price else jsAbs record.price
      .ok [{ accountId := cfg.accountId
             comment := ""
             fee := fees
             quantity := numberOfShares
             type := ghostfolioOrderTypeLookup record.type
             unitPrice := assetPrice
             currency := security.currency.getD record.currency
             dataSource := "YAHOO"
             date := fmtDate record.date
             symbol := security.symbol }]

/-- The row loop from index `idx` on, accumulating activities in row order;
a resolver error stops the loop. -/
def processRecordsFrom (cfg : ConverterConfig) (fmtDate : String → String) (resolver : Resolver)
    (idx : Nat) : List TrueWealthRecord → Except Abort (List Activity)
  | [] => .ok []
  | r :: rest =>
    match processRecord cfg fmtDate resolver idx r with
    | .error a => .error a
    | .ok acts =>
      match processRecordsFrom cfg fmtDate resolver (idx + 1) rest with
      | .error a => .error a
      | .ok more => .ok (acts ++ more)

/-- The whole row-processing phase over the parsed records. -/
def run (cfg : ConverterConfig) (fmtDate : String → String) (resolver : Resolver)
    (now : String) (records : List TrueWealthRecord) : PipelineOutcome :=
  match processRecordsFrom cfg fmtDate resolver 0 records with
  | .error a => .resolutionAbort a.identifier a.line a.err
  | .ok acts => .success ⟨⟨now, "v0"⟩, acts⟩

/-- `TrueWealthConverter.processFileContents`: parse with `fromLine: 2` and
the Mode A header list, fail on a parse error or zero records, then run the
row loop. -/
def processFileContents (cfg : ConverterConfig) (fmtDate : String → String)
    (resolver : Resolver) (now : String) (input : String) : PipelineOutcome :=
  match parseRecords 2 (processHeaders input).length (buildRecord (processHeaders input)) input with
  | .error msg => .parseFailed ("An error ocurred while parsing! Details: " ++ msg)
  | .ok [] => .parseFailed "An error ocurred while parsing!"
  | .ok records => run cfg fmtDate resolver now records

end TrueWealth

namespace Bitpanda

/-- `1 troy ounce = 31.1034768 grams`. -/
def troyOunceInGrams : ℚ := 311034768 / 10000000

/-- `BitpandaConverter.gramsToTroyOunces`. -/
def gramsToTroyOunces (grams : JsNum) : JsNum := jsDivC grams troyOunceInGrams

/-- `BitpandaConverter.mapBitpandaSymbolToYahoo`: the static rename table
holds the single entry `POL → MATIC`; `mapping[asset] || asset`. -/
def mapBitpandaSymbolToYahoo (asset : String) : String :=
  if asset = "POL" then "MATIC" else asset

/-- `BitpandaConverter.processHeaders`: the fixed, provider-known column
list; the argument (the raw file text) is ignored. -/
def processHeaders (_ : String) : List String :=
  ["transactionId", "timestamp", "transactionType", "inOut", "amountFiat", "fiat",
   "amountAsset", "asset", "assetMarketPrice", "assetMarketPriceCurrency", "assetClass",
   "productId", "fee", "feeAsset", "feePercent", "spread", "spreadCurrency", "taxFiat"]

/-- The columns the `cast` callback treats as floats. -/
def floatFields : List String :=
  ["amountFiat", "amountAsset", "assetMarketPrice", "fee", "feePercent", "spread", "taxFiat"]

/-- JS `(v + "").replace(/[^\d.-]/g, "")`. -/
def stripNonNumeric (s : String) : String :=
  ⟨s.data.filter (fun c => c.isDigit || c = '.' || c = '-')⟩

/-- The numeric branch of the Bitpanda `cast` callback: empty cells and the
`"-"` placeholder become `0`; otherwise currency symbols are stripped and
the absolute value of the parsed float is taken. -/
def castNum (v : String) : JsNum :=
  if v = "" || v = "-" then some 0
  else jsAbs (parseFloat (stripNonNumeric v))

/-- The full Bitpanda `cast` callback. -/
def castCell (col v : String) : CellVal :=
  if col ∈ floatFields then .num (castNum v) else .str v

/-- One parsed CSV row as a `BitpandaRecord`; the positions correspond to
the fixed `processHeaders` column list, and the numeric positions are
exactly the `floatFields` columns. -/
def buildRecord (fs : List String) : BitpandaRecord where
  transactionId := fs.getD 0 ""
  timestamp := fs.getD 1 ""
  transactionType := fs.getD 2 ""
  inOut := fs.getD 3 ""
  amountFiat := castNum (fs.getD 4 "")
  fiat := fs.getD 5 ""
  amountAsset := castNum (fs.getD 6 "")
  asset := fs.getD 7 ""
  assetMarketPrice := castNum (fs.getD 8 "")
  assetMarketPriceCurrency := fs.getD 9 ""
  assetClass := fs.getD 10 ""
  productId := fs.getD 11 ""
  fee := castNum (fs.getD 12 "")
  feeAsset := fs.getD 13 ""
  feePercent := castNum (fs.getD 14 "")
  spread := fs.getD 15 "" |> castNum
  spreadCurrency := fs.getD 16 ""
  taxFiat := castNum (fs.getD 17 "")

/-- `BitpandaConverter.isIgnoredRecord`: `assetClass` missing (falsy) or
equal to `"Fiat"` case-insensitively. -/
def isIgnoredRecord (record : BitpandaRecord) : Bool :=
  record.assetClass = "" || lowerStr record.assetClass = "fiat"

/-- The type-determination chain of the row loop; `none` models the
`undefined` that makes the loop `continue`. -/
def determineType (record : BitpandaRecord) : Option String :=
  if lowerStr record.transactionType = "reward" then some "interest"
  else if startsWithStr (lowerStr record.transactionType) "transfer" then
    some (if lowerStr record.inOut = "incoming" then "buy" else "sell")
  else if lowerStr record.transactionType = "buy" then some "buy"
  else if lowerStr record.transactionType = "sell" then some "sell"
  else none

/-- The metal-branch symbol lookup: `getSecurity(null, null, record.asset,
null, ...)`; a missing result, a falsy (empty) symbol, or a thrown error all
fall back to the raw asset identifier. -/
def metalSymbol (resolver : Resolver) (record : BitpandaRecord) : String :=
  match resolver none none (some record.asset) none with
  | .ok (some security) => if security.symbol ≠ "" then security.symbol else record.asset
  | .ok none => record.asset
  | .error _ => record.asset

/-- The asset-class dispatch of the row loop, yielding
`(symbol, quantity, unitPrice)`.  JS `record.assetClass ?
record.assetClass.toLowerCase() : ""` equals `lowerStr record.assetClass`
because `lowerStr "" = ""`. -/
def deriveAsset (resolver : Resolver) (record : BitpandaRecord) : String × JsNum × JsNum :=
  let assetClass := lowerStr record.assetClass
  if assetClass = "cryptocurrency" then
    (mapBitpandaSymbolToYahoo record.asset ++ "USD", record.amountAsset, record.assetMarketPrice)
  else if assetClass = "stock (derivative)" then
    (record.asset, record.amountAsset, record.assetMarketPrice)
  else if assetClass = "metal" then
    (metalSymbol resolver record, gramsToTroyOunces record.amountAsset,
      jsMul record.assetMarketPrice troyOunceInGrams)
  else
    (record.asset, record.amountAsset, record.assetMarketPrice)

/-- The body of the Bitpanda row loop: the activities pushed for one record
(zero for ignored or unclassifiable records, two for rewards, one
otherwise). -/
def processRecord (cfg : ConverterConfig) (fmtDate : String → String) (resolver : Resolver)
    (record : BitpandaRecord) : List Activity :=
  if isIgnoredRecord record then []
  else
    match determineType record with
    | none => []
    | some type =>
      match deriveAsset resolver record with
      | (symbol, quantity, unitPrice) =>
        let date := fmtDate record.timestamp
        if type = "interest" then
          [{ accountId := cfg.accountId
             comment := "Staking reward " ++ record.asset
             fee := record.fee
             quantity := some 1
             type := ghostfolioOrderTypeLookup type
             unitPrice := record.amountFiat
             currency := record.fiat
             dataSource := "MANUAL"
             date := date
             symbol := cfg.stakingRewardAssetId },
           { accountId := cfg.accountId
             comment := ""
             fee := some 0
             quantity := quantity
             type := ghostfolioOrderTypeLookup "buy"
             unitPrice := unitPrice
             currency := jsOr record.assetMarketPriceCurrency record.fiat
             dataSource := "YAHOO"
             date := date
             symbol := symbol }]
        else
          [{ accountId := cfg.accountId
             comment := ""
             fee := record.fee
             quantity := quantity
             type := ghostfolioOrderTypeLookup type
             unitPrice := unitPrice
             currency := jsOr record.assetMarketPriceCurrency record.fiat
             dataSource := "YAHOO"
             date := date
             symbol := symbol }]

/-- The whole Bitpanda row loop (it never aborts: the only resolver call is
inside the metal branch, whose `try`/`catch` swallows errors). -/
def run (cfg : ConverterConfig) (fmtDate : String → String) (resolver : Resolver)
    (now : String) (records : List BitpandaRecord) : PipelineOutcome :=
  .success ⟨⟨now, "v0"⟩, (records.map (processRecord cfg fmtDate resolver)).flatten⟩

/-- `headerLineIdx = 7` (0-based; the code comments that 1-based line 8 is
the header). -/
def headerLineIdx : Nat := 7

/-- One iteration of the preprocessing loop: a non-blank line with fewer
comma-separated columns than expected is padded on the right with `",-"`
per missing column. -/
def padLine (expectedColumns : Nat) (line : String) : String :=
  if blankLine line then line
  else
    let cols := (chSplit ',' line).length
    if cols < expectedColumns then line ++ repeatStr (expectedColumns - cols) ",-"
    else line

/-- The preprocessing `for` loop: pad every line of 0-based index
`headerLineIdx + 1` or greater (`i` is the running index of the head of the
list). -/
def preprocessLinesAux (expectedColumns i : Nat) : List String → List String
  | [] => []
  | l :: rest =>
    (if headerLineIdx + 1 ≤ i then padLine expectedColumns l else l) ::
      preprocessLinesAux expectedColumns (i + 1) rest

/-- The full input preprocessing: split on `/\r?\n/`, pad the data lines,
join with `"\n"`. -/
def preprocessInput (input : String) : String :=
  joinLines (preprocessLinesAux (processHeaders input).length 0 (splitLines input))

/-- The parse stage of the Bitpanda converter: csv-parse on the preprocessed
input with `fromLine: 8` and the fixed column list. -/
def parsedRecords (input : String) : Except String (List BitpandaRecord) :=
  parseRecords 8 (processHeaders input).length buildRecord (preprocessInput input)

/-- `BitpandaConverter.processFileContents`. -/
def processFileContents (cfg : ConverterConfig) (fmtDate : String → String)
    (resolver : Resolver) (now : String) (input : String) : PipelineOutcome :=
  match parsedRecords input with
  | .error msg => .parseFailed ("An error occurred while parsing! Details: " ++ msg)
  | .ok [] => .parseFailed "An error occurred while parsing!"
  | .ok records => run cfg fmtDate resolver now records

end Bitpanda

/-! ### Concrete fixtures used by the proofs -/

/-- A sample injected configuration. -/
def cfg₀ : ConverterConfig := ⟨"account-1", "STAKING-REWARDS"⟩

/-- A trivial date-formatting function (the pipelines are parametric in it). -/
def strId : String → String := fun s => s

/-- A resolver that succeeds with a CHF-denominated security. -/
def chfResolver : Resolver := fun _ _ _ _ => .ok (some ⟨"ABC", some "CHF"⟩)

/-- A resolver that returns "no result" on every call. -/
def noneResolver : Resolver := fun _ _ _ _ => .ok none

/-- A resolver that throws on every call. -/
def errResolver : Resolver := fun _ _ _ _ => .error "boom"

/-- A TrueWealth header line with the canonical column names. -/
def twHeader : String :=
  "date,type,currency,price,shares,amount,taxes,fees,isin,value,valueCurrency,securityName"

/-- A TrueWealth file with one well-formed buy row (negative share count,
nonzero fees cell). -/
def twBuyInput : String :=
  twHeader ++ "\n" ++ "2024-01-02,Buy,CHF,10,-5,50,0,2,CH1,50,CHF,Foo Corp"

/-- A TrueWealth file with one buy row whose `shares` cell is empty. -/
def twEmptySharesInput : String :=
  twHeader ++ "\n" ++ "2024-01-02,Buy,CHF,10,,50,0,2,CH1,50,CHF,Foo Corp"

/-- A TrueWealth file with one row whose type matches no classification
rule. -/
def twDepositInput : String :=
  twHeader ++ "\n" ++ "2024-01-02,Deposit,CHF,0,0,100,0,0,CH0,100,CHF,Cash Account"

/-- A TrueWealth file whose single data row has only 7 of the 12 declared
columns. -/
def twShortInput : String :=
  twHeader ++ "\n" ++ "2024-01-02,Buy,CHF,10,5,50,0"

/-- The TrueWealth record parsed from the data row of `twBuyInput`. -/
def twBuyRecord : TrueWealthRecord where
  date := "2024-01-02"
  type := "buy"
  currency := "CHF"
  price := some 10
  shares := some (-5)
  amount := some 50
  taxes := some 0
  fees := some 2
  isin := "CH1"
  value := some 50
  valueCurrency := "CHF"
  securityName := "Foo Corp"

/-- The activity the TrueWealth converter emits for `twBuyInput` under
`cfg₀`, `strId` and `chfResolver`. -/
def twBuyActivity : Activity where
  accountId := "account-1"
  comment := ""
  fee := some 0
  quantity := some 5
  type := some .buy
  unitPrice := some 10
  currency := "CHF"
  dataSource := "YAHOO"
  date := "2024-01-02"
  symbol := "ABC"

/-- The envelope delivered for `twBuyInput`. -/
def twBuyEnvelope : GhostfolioExport := ⟨⟨"t", "v0"⟩, [twBuyActivity]⟩

/-- The seven metadata lines at the top of a Bitpanda export. -/
def bpMetaLines : String :=
  "meta1\nmeta2\nmeta3\nmeta4\nmeta5\nmeta6\nmeta7\n"

/-- The real header row of a Bitpanda export (1-based line 8). -/
def bpHeaderLine : String :=
  "Transaction ID,Timestamp,Transaction Type,In/Out,Amount Fiat,Fiat,Amount Asset,Asset,Asset market price,Asset market price currency,Asset class,Product ID,Fee,Fee asset,Fee percent,Spread,Spread Currency,Tax Fiat"

/-- A metal buy row: 62.2069536 grams of gold at 1 EUR per gram. -/
def bpMetalRow : String :=
  "t1,2024-01-01T00:00:00Z,Buy,outgoing,5,EUR,62.2069536,Gold,1,EUR,Metal,,0,,0,0,,0"

/-- A complete Bitpanda file: 7 metadata lines, the header on line 8, one
metal data row on line 9. -/
def bpMetalInput : String := bpMetaLines ++ bpHeaderLine ++ "\n" ++ bpMetalRow

/-- The Bitpanda record of a staking reward of a metal asset. -/
def bpMetalRewardRecord : BitpandaRecord where
  transactionId := "t2"
  timestamp := "2024-01-01T00:00:00Z"
  transactionType := "Reward"
  inOut := "incoming"
  amountFiat := some 5
  fiat := "EUR"
  amountAsset := some (622069536 / 10000000)
  asset := "Gold"
  assetMarketPrice := some 1
  assetMarketPriceCurrency := "EUR"
  assetClass := "Metal"
  productId := ""
  fee := some 0
  feeAsset := ""
  feePercent := some 0
  spread := some 0
  spreadCurrency := ""
  taxFiat := some 0

/-- The Bitpanda record of a cryptocurrency staking reward. -/
def bpCryptoRewardRecord : BitpandaRecord where
  transactionId := "t3"
  timestamp := "2024-02-02T00:00:00Z"
  transactionType := "Reward"
  inOut := "incoming"
  amountFiat := some 5
  fiat := "EUR"
  amountAsset := some (1 / 1000)
  asset := "BTC"
  assetMarketPrice := some 50000
  assetMarketPriceCurrency := "EUR"
  assetClass := "Cryptocurrency"
  productId := ""
  fee := some 0
  feeAsset := ""
  feePercent := some 0
  spread := some 0
  spreadCurrency := ""
  taxFiat := some 0

/-- The Bitpanda record parsed from `bpMetalRow`. -/
def bpMetalBuyRecord : BitpandaRecord := Bitpanda.buildRecord (chSplit ',' bpMetalRow)

/-- A cryptocurrency buy row with only 11 of the 18 schema columns. -/
def bpShortRow : String :=
  "t4,2024-03-03T00:00:00Z,Buy,incoming,50,EUR,0.001,BTC,50000,EUR,Cryptocurrency"

/-- A concrete Bitpanda line list with the short row at 0-based index 8. -/
def bpShortLines : List String :=
  ["meta1", "meta2", "meta3", "meta4", "meta5", "meta6", "meta7", bpHeaderLine, bpShortRow]

/-- Nonnegative-or-NaN: every numeric value the field can denote is `≥ 0`
(`NaN` denotes no number). -/
def jsNonnegOrNaN (x : JsNum) : Prop := ∀ q : ℚ, x = some q → 0 ≤ q

/-- The literal reading of the spec invariant `x ≥ 0` for a JS number: the
field holds an actual number and that number is nonnegative (`NaN ≥ 0` is
false in JS). -/
def jsNonneg (x : JsNum) : Prop := ∃ q : ℚ, x = some q ∧ 0 ≤ q

/-! ### Helper lemmas -/

theorem jsAbs_nonnegOrNaN (x : JsNum) : jsNonnegOrNaN (jsAbs x) := by
  intro q hq
  cases x with
  | none => simp [jsAbs] at hq
  | some v =>
    simp [jsAbs] at hq
    exact hq ▸ abs_nonneg v

theorem some_zero_nonnegOrNaN : jsNonnegOrNaN (some 0) := by
  intro q hq
  injection hq with h
  simp [← h]

theorem some_one_nonnegOrNaN : jsNonnegOrNaN (some 1) := by
  intro q hq
  injection hq with h
  simp [← h]

theorem jsMul_nonnegOrNaN (x : JsNum) (c : ℚ) (hx : jsNonnegOrNaN x) (hc : 0 ≤ c) :
    jsNonnegOrNaN (jsMul x c) := by
  intro q hq
  cases x with
  | none => simp [jsMul] at hq
  | some v =>
    simp [jsMul] at hq
    exact hq ▸ mul_nonneg (hx v rfl) hc

theorem jsDivC_nonnegOrNaN (x : JsNum) (c : ℚ) (hx : jsNonnegOrNaN x) (hc : 0 ≤ c) :
    jsNonnegOrNaN (jsDivC x c) := by
  intro q hq
  cases x with
  | none => simp [jsDivC] at hq
  | some v =>
    simp [jsDivC] at hq
    exact hq ▸ div_nonneg (hx v rfl) hc

theorem troyOunceInGrams_nonneg : (0 : ℚ) ≤ Bitpanda.troyOunceInGrams := by
  norm_num [Bitpanda.troyOunceInGrams]

/-! ### TrueWealth row-loop soundness -/

/-- Every activity a successful TrueWealth row step emits has fee `0`,
absolute (or NaN) quantity and unit price, and a type obtained by enum
lookup of the record's type. -/
theorem TrueWealth.processRecord_sound (cfg : ConverterConfig) (fmtDate : String → String)
    (resolver : Resolver) (idx : Nat) (record : TrueWealthRecord) (acts : List Activity)
    (h : processRecord cfg fmtDate resolver idx record = .ok acts) :
    ∀ a ∈ acts,
      a.fee = some 0 ∧ jsNonnegOrNaN a.quantity ∧ jsNonnegOrNaN a.unitPrice ∧
      a.type = ghostfolioOrderTypeLookup record.type := by
  unfold processRecord at h
  split at h
  · cases h
    simp
  · split at h
    · cases h
    · cases h
      simp
    · cases h
      intro a ha
      simp only [List.mem_singleton] at ha
      subst ha
      refine ⟨by simp [isNumberObject], ?_, ?_, rfl⟩
      · dsimp only
        split
        · exact some_one_nonnegOrNaN
        · exact jsAbs_nonnegOrNaN _
      · dsimp only
        split
        · exact jsAbs_nonnegOrNaN _
        · exact jsAbs_nonnegOrNaN _

/-- Lift a per-step property through the row loop. -/
theorem TrueWealth.processRecordsFrom_sound (cfg : ConverterConfig)
    (fmtDate : String → String) (resolver : Resolver) (P : Activity → Prop)
    (hP : ∀ idx record acts,
      processRecord cfg fmtDate resolver idx record = .ok acts → ∀ a ∈ acts, P a) :
    ∀ (records : List TrueWealthRecord) (idx : Nat) (acts : List Activity),
      processRecordsFrom cfg fmtDate resolver idx records = .ok acts → ∀ a ∈ acts, P a := by
  intro records
  induction records with
  | nil =>
    intro idx acts h
    unfold processRecordsFrom at h
    cases h
    simp
  | cons r rest ih =>
    intro idx acts h
    unfold processRecordsFrom at h
    split at h
    · cases h
    · split at h
      · cases h
      · cases h
        intro a ha
        rcases List.mem_append.mp ha with ha | ha
        · exact hP idx r _ (by assumption) a ha
        · exact ih (idx + 1) _ (by assumption) a ha

/-- Lift a per-step property through a successful whole run. -/
theorem TrueWealth.twSuccess_sound (cfg : ConverterConfig)
    (fmtDate : String → String) (resolver : Resolver) (now input : String)
    (e : GhostfolioExport) (P : Activity → Prop)
    (hP : ∀ idx record acts,
      processRecord cfg fmtDate resolver idx record = .ok acts → ∀ a ∈ acts, P a)
    (h : processFileContents cfg fmtDate resolver now input = .success e) :
    ∀ a ∈ e.activities, P a := by
  unfold processFileContents at h
  split at h
  · cases h
  · cases h
  · unfold run at h
    split at h
    · cases h
    · rename_i acts hacts
      cases h
      exact processRecordsFrom_sound cfg fmtDate resolver P hP _ 0 acts hacts

/-! ### Bitpanda row-loop soundness -/

/-- The Bitpanda numeric cast yields `0` or an absolute value (or NaN). -/
theorem Bitpanda.castNum_nonnegOrNaN (s : String) : jsNonnegOrNaN (castNum s) := by
  unfold castNum
  split
  · exact some_zero_nonnegOrNaN
  · exact jsAbs_nonnegOrNaN _

/-- The asset-class dispatch preserves nonnegative-or-NaN quantity and unit
price. -/
theorem Bitpanda.deriveAsset_nonneg (resolver : Resolver) (record : BitpandaRecord)
    (hq : jsNonnegOrNaN record.amountAsset) (hu : jsNonnegOrNaN record.assetMarketPrice) :
    jsNonnegOrNaN (deriveAsset resolver record).2.1 ∧
    jsNonnegOrNaN (deriveAsset resolver record).2.2 := by
  unfold deriveAsset
  dsimp only
  split
  · exact ⟨hq, hu⟩
  · split
    · exact ⟨hq, hu⟩
    · split
      · exact ⟨jsDivC_nonnegOrNaN _ _ hq troyOunceInGrams_nonneg,
          jsMul_nonnegOrNaN _ _ hu troyOunceInGrams_nonneg⟩
      · exact ⟨hq, hu⟩

/-- Every activity the Bitpanda row step emits from a record with
nonnegative-or-NaN numeric fields again has nonnegative-or-NaN quantity,
unit price and fee. -/
theorem Bitpanda.processRecord_nonneg (cfg : ConverterConfig) (fmtDate : String → String)
    (resolver : Resolver) (record : BitpandaRecord)
    (hq : jsNonnegOrNaN record.amountAsset) (hu : jsNonnegOrNaN record.assetMarketPrice)
    (hf : jsNonnegOrNaN record.fee) (haf : jsNonnegOrNaN record.amountFiat) :
    ∀ a ∈ processRecord cfg fmtDate resolver record,
      jsNonnegOrNaN a.quantity ∧ jsNonnegOrNaN a.unitPrice ∧ jsNonnegOrNaN a.fee := by
  have hd := deriveAsset_nonneg resolver record hq hu
  unfold processRecord
  split
  · simp
  · split
    · simp
    · rcases hda : deriveAsset resolver record with ⟨sym, q, u⟩
      rw [hda] at hd
      dsimp only at hd ⊢
      split
      · intro a ha
        simp only [List.mem_cons, List.not_mem_nil, or_false] at ha
        rcases ha with rfl | rfl
        · exact ⟨some_one_nonnegOrNaN, haf, hf⟩
        · exact ⟨hd.1, hd.2, some_zero_nonnegOrNaN⟩
      · intro a ha
        simp only [List.mem_singleton] at ha
        subst ha
        exact ⟨hd.1, hd.2, hf⟩

/-- All numeric fields of a cast CSV row are nonnegative or NaN. -/
theorem Bitpanda.buildRecord_nonneg (fs : List String) :
    jsNonnegOrNaN (buildRecord fs).amountAsset ∧ jsNonnegOrNaN (buildRecord fs).assetMarketPrice ∧
    jsNonnegOrNaN (buildRecord fs).fee ∧ jsNonnegOrNaN (buildRecord fs).amountFiat :=
  ⟨castNum_nonnegOrNaN _, castNum_nonnegOrNaN _, castNum_nonnegOrNaN _, castNum_nonnegOrNaN _⟩

/-- Every record the Bitpanda parse stage yields was built by `buildRecord`. -/
theorem Bitpanda.parsedRecords_mem (input : String) (rs : List BitpandaRecord)
    (h : parsedRecords input = .ok rs) : ∀ r ∈ rs, ∃ fs, r = buildRecord fs := by
  unfold parsedRecords parseRecords at h
  dsimp only at h
  split at h
  · cases h
    intro r hr
    rcases List.mem_map.mp hr with ⟨l, -, rfl⟩
    exact ⟨_, rfl⟩
  · cases h

/-- Every delivered Bitpanda activity comes from the row step of one of the
parsed records. -/
theorem Bitpanda.run_mem (cfg : ConverterConfig) (fmtDate : String → String)
    (resolver : Resolver) (now : String) (records : List BitpandaRecord)
    (e : GhostfolioExport) (h : run cfg fmtDate resolver now records = .success e) :
    ∀ a ∈ e.activities, ∃ r ∈ records, a ∈ processRecord cfg fmtDate resolver r := by
  unfold run at h
  cases h
  intro a ha
  dsimp only at ha
  rcases List.mem_flatten.mp ha with ⟨l, hl, hal⟩
  rcases List.mem_map.mp hl with ⟨r, hr, rfl⟩
  exact ⟨r, hr, hal⟩

/-- Lift a per-record property through a successful whole Bitpanda run. -/
theorem Bitpanda.bpSuccess_sound (cfg : ConverterConfig)
    (fmtDate : String → String) (resolver : Resolver) (now input : String)
    (e : GhostfolioExport) (P : Activity → Prop)
    (hP : ∀ record, (∃ fs, record = buildRecord fs) →
      ∀ a ∈ processRecord cfg fmtDate resolver record, P a)
    (h : processFileContents cfg fmtDate resolver now input = .success e) :
    ∀ a ∈ e.activities, P a := by
  unfold processFileContents at h
  split at h
  · cases h
  · cases h
  · rename_i records hne hrecs
    intro a ha
    rcases run_mem cfg fmtDate resolver now records e h a ha with ⟨r, hr, har⟩
    exact hP r (parsedRecords_mem input records hrecs r hr) a har

/-! ### Claim C4 -/

/-- Claim C4, amended: in every envelope either converter delivers, each
activity's quantity, unit price and fee is nonnegative whenever it is an
actual number — quantities, prices and fees are sign-normalized to absolute
values (or `0`), but a cell that fails to parse yields `NaN`, for which the
claimed `≥ 0` comparison fails. -/
theorem C4_activities_nonneg :
    ∀ (cfg : ConverterConfig) (fmtDate : String → String) (resolver : Resolver)
      (now input : String) (e : GhostfolioExport),
      (TrueWealth.processFileContents cfg fmtDate resolver now input = .success e ∨
        Bitpanda.processFileContents cfg fmtDate resolver now input = .success e) →
      ∀ a ∈ e.activities,
        jsNonnegOrNaN a.quantity ∧ jsNonnegOrNaN a.unitPrice ∧ jsNonnegOrNaN a.fee := by
  rintro cfg f res now input e (h | h) a ha
  · refine TrueWealth.twSuccess_sound cfg f res now input e
      (fun b => jsNonnegOrNaN b.quantity ∧ jsNonnegOrNaN b.unitPrice ∧ jsNonnegOrNaN b.fee)
      ?_ h a ha
    intro idx record acts hok b hb
    obtain ⟨hfee, hq, hu, -⟩ := TrueWealth.processRecord_sound cfg f res idx record acts hok b hb
    exact ⟨hq, hu, by rw [hfee]; exact some_zero_nonnegOrNaN⟩
  · refine Bitpanda.bpSuccess_sound cfg f res now input e
      (fun b => jsNonnegOrNaN b.quantity ∧ jsNonnegOrNaN b.unitPrice ∧ jsNonnegOrNaN b.fee)
      ?_ h a ha
    intro record hbuild b hb
    obtain ⟨fs, rfl⟩ := hbuild
    obtain ⟨h1, h2, h3, h4⟩ := Bitpanda.buildRecord_nonneg fs
    exact Bitpanda.processRecord_nonneg cfg f res _ h1 h2 h3 h4 b hb

set_option maxRecDepth 10000 in
/-- Witness for C4: the amended theorem applied to the concrete
`twBuyInput` run. -/
theorem C4_witness : jsNonnegOrNaN twBuyActivity.unitPrice :=
  (C4_activities_nonneg cfg₀ strId chfResolver "t" twBuyInput twBuyEnvelope
    (Or.inl (by decide)) twBuyActivity (by decide)).2.1

set_option maxRecDepth 10000 in
/-- Counterexample to C4 as stated: a TrueWealth row whose `shares` cell is
empty is still emitted, with quantity `NaN`, and `NaN ≥ 0` does not hold. -/
theorem C4_counterexample :
    (TrueWealth.processFileContents cfg₀ strId chfResolver "t" twEmptySharesInput).isSuccess
      = true ∧
    (TrueWealth.processFileContents cfg₀ strId chfResolver "t"
        twEmptySharesInput).deliveredActivities.map Activity.quantity = [none] ∧
    ¬ jsNonneg (((TrueWealth.processFileContents cfg₀ strId chfResolver "t"
        twEmptySharesInput).deliveredActivities.headD default).quantity) := by
  refine ⟨by decide, by decide, ?_⟩
  have h : ((TrueWealth.processFileContents cfg₀ strId chfResolver "t"
      twEmptySharesInput).deliveredActivities.headD default).quantity = none := by decide
  rw [h]
  rintro ⟨q, hq, -⟩
  cases hq

/-! ### Claim C9 -/

/-- Claim C9: every activity the TrueWealth converter delivers has fee `0`,
whatever the fees column held — `isNumberObject` is false on every primitive
number, so the defaulting branch always overwrites the parsed fee. -/
theorem C9_fees_always_zero :
    ∀ (cfg : ConverterConfig) (fmtDate : String → String) (resolver : Resolver)
      (now input : String) (e : GhostfolioExport),
      TrueWealth.processFileContents cfg fmtDate resolver now input = .success e →
      ∀ a ∈ e.activities, a.fee = some 0 := by
  intro cfg f res now input e h a ha
  refine TrueWealth.twSuccess_sound cfg f res now input e
    (fun b => b.fee = some 0) ?_ h a ha
  intro idx record acts hok b hb
  exact (TrueWealth.processRecord_sound cfg f res idx record acts hok b hb).1

set_option maxRecDepth 10000 in
/-- Witness for C9: the concrete `twBuyInput` run, whose fees cell holds
`2`, still delivers fee `0`. -/
theorem C9_witness : twBuyActivity.fee = some 0 :=
  C9_fees_always_zero cfg₀ strId chfResolver "t" twBuyInput twBuyEnvelope
    (by decide) twBuyActivity (by decide)

/-! ### Claim C5 -/

/-- Claim C5, amended: on every declared numeric column, the Bitpanda cast
normalizes the empty cell and the `"-"` placeholder to `0`; the TrueWealth
cast applies plain `parseFloat`, so the same cells yield `NaN` there, not
`0`. -/
theorem C5_placeholder_normalization :
    (∀ c ∈ Bitpanda.floatFields,
      Bitpanda.castCell c "" = .num (some 0) ∧ Bitpanda.castCell c "-" = .num (some 0)) ∧
    (∀ c ∈ TrueWealth.numericColumns,
      TrueWealth.castCell c "" = .num none ∧ TrueWealth.castCell c "-" = .num none) := by
  decide

/-- Witness for C5: the amended theorem applied to the `amountFiat` and
`shares` columns. -/
theorem C5_witness :
    Bitpanda.castCell "amountFiat" "-" = .num (some 0) ∧
    TrueWealth.castCell "shares" "-" = .num none :=
  ⟨(C5_placeholder_normalization.1 "amountFiat" (by decide)).2,
   (C5_placeholder_normalization.2 "shares" (by decide)).2⟩

/-- Counterexample to C5 as stated: the TrueWealth cast of an empty `shares`
cell is `NaN`, not the number `0`. -/
theorem C5_counterexample :
    TrueWealth.castCell "shares" "" = .num none ∧
    CellVal.num none ≠ CellVal.num (some 0) := by
  decide

/-! ### Claim C1 -/

/-- If every record before some record `r` is either ignored or resolves
without a thrown error, `r` is not ignored, and the resolver throws on `r`,
the TrueWealth row loop stops with the abort data of `r`: the identifier
`record.isin || record.securityName` and the 1-based CSV line of `r`. -/
theorem TrueWealth.processRecordsFrom_abort (cfg : ConverterConfig)
    (fmtDate : String → String) (resolver : Resolver)
    (pre : List TrueWealthRecord) (rest : List TrueWealthRecord)
    (r : TrueWealthRecord) (e : String) :
    ∀ idx : Nat,
      (∀ p ∈ pre, isIgnoredRecord p = true ∨ ∃ v, resolveRecord resolver p = Except.ok v) →
      isIgnoredRecord r = false →
      resolveRecord resolver r = Except.error e →
      processRecordsFrom cfg fmtDate resolver idx (pre ++ r :: rest)
        = Except.error ⟨jsOr r.isin r.securityName, idx + pre.length + 2, e⟩ := by
  induction pre with
  | nil =>
    intro idx hpre hig hres
    simp only [List.nil_append, List.length_nil, Nat.add_zero]
    unfold processRecordsFrom processRecord
    rw [hig, hres]
    simp
  | cons p pre ih =>
    intro idx hpre hig hres
    have hp := hpre p (List.mem_cons_self p pre)
    have hrec : ∃ acts, processRecord cfg fmtDate resolver idx p = .ok acts := by
      unfold processRecord
      rcases hp with hp | ⟨v, hv⟩
      · exact ⟨[], by rw [hp]; exact if_pos rfl⟩
      · by_cases hip : isIgnoredRecord p
        · exact ⟨[], by rw [hip]; exact if_pos rfl⟩
        · rw [eq_false_of_ne_true hip, hv]
          cases v
          · exact ⟨[], rfl⟩
          · exact ⟨_, rfl⟩
    obtain ⟨acts, hacts⟩ := hrec
    have htail := ih (idx + 1) (fun q hq => hpre q (List.mem_cons_of_mem p hq)) hig hres
    have harith : idx + 1 + pre.length + 2 = idx + (p :: pre).length + 2 := by
      simp only [List.length_cons]
      omega
    rw [harith] at htail
    simp only [List.cons_append]
    unfold processRecordsFrom
    rw [hacts, htail]

set_option maxRecDepth 10000 in
/-- Claim C1, amended: for the TrueWealth converter, a thrown resolver error
on any reached row aborts the whole run, reporting the row's 1-based line
number and the identifier attempted (`isin || securityName`), and no
envelope is delivered; the Bitpanda converter never aborts on a resolver
error — its only resolution call, the metal-asset lookup, catches the
thrown error and falls back to the raw asset identifier as the symbol,
continuing the run. -/
theorem C1_resolution_error_handling :
    (∀ (cfg : ConverterConfig) (fmtDate : String → String) (resolver : Resolver) (now : String)
      (pre rest : List TrueWealthRecord) (r : TrueWealthRecord) (e : String),
      (∀ p ∈ pre, TrueWealth.isIgnoredRecord p = true ∨
        ∃ v, TrueWealth.resolveRecord resolver p = Except.ok v) →
      TrueWealth.isIgnoredRecord r = false →
      TrueWealth.resolveRecord resolver r = Except.error e →
      TrueWealth.run cfg fmtDate resolver now (pre ++ r :: rest)
        = .resolutionAbort (jsOr r.isin r.securityName) (pre.length + 2) e) ∧
    (∀ (cfg : ConverterConfig) (fmtDate : String → String) (resolver : Resolver)
      (now input : String),
      (Bitpanda.processFileContents cfg fmtDate resolver now input).isResolutionAbort = false) ∧
    (∀ (resolver : Resolver) (record : BitpandaRecord) (e : String),
      resolver none none (some record.asset) none = Except.error e →
      Bitpanda.metalSymbol resolver record = record.asset) := by
  refine ⟨?_, ?_, ?_⟩
  · intro cfg fmtDate resolver now pre rest r e hpre hig hres
    have h := TrueWealth.processRecordsFrom_abort cfg fmtDate resolver pre rest r e 0 hpre hig hres
    unfold TrueWealth.run
    rw [h]
    simp
  · intro cfg fmtDate resolver now input
    unfold Bitpanda.processFileContents
    split
    · rfl
    · rfl
    · unfold Bitpanda.run
      rfl
  · intro resolver record e h
    unfold Bitpanda.metalSymbol
    rw [h]

/-- Witness for C1: a one-row TrueWealth run with a throwing resolver aborts
with line 2 and identifier CH1; the concrete Bitpanda metal run with the
same resolver does not abort and keeps the raw asset symbol. -/
theorem C1_witness :
    TrueWealth.run cfg₀ strId errResolver "t" [twBuyRecord]
      = .resolutionAbort "CH1" 2 "boom" ∧
    (Bitpanda.processFileContents cfg₀ strId errResolver "t" bpMetalInput).isResolutionAbort
      = false ∧
    Bitpanda.metalSymbol errResolver bpMetalBuyRecord = bpMetalBuyRecord.asset := by
  refine ⟨?_, ?_, ?_⟩
  · exact C1_resolution_error_handling.1 cfg₀ strId errResolver "t" [] [] twBuyRecord "boom"
      (fun p hp => absurd hp (List.not_mem_nil p)) (by decide) rfl
  · exact C1_resolution_error_handling.2.1 cfg₀ strId errResolver "t" bpMetalInput
  · exact C1_resolution_error_handling.2.2 errResolver bpMetalBuyRecord "boom" rfl

set_option maxRecDepth 10000 in
/-- Counterexample to C1 as stated: on a Bitpanda file whose only data row
is a metal buy, a resolver that throws on every call still yields a
successful envelope through the success callback — the metal-asset lookup
does not abort the run. -/
theorem C1_counterexample :
    (Bitpanda.processFileContents cfg₀ strId errResolver "t" bpMetalInput).isSuccess = true ∧
    (Bitpanda.processFileContents cfg₀ strId errResolver "t" bpMetalInput).deliveredActivities.map
      Activity.symbol = ["Gold"] :=
  ⟨by decide, by decide⟩

/-! ### Claim C2 -/

set_option maxRecDepth 10000 in
/-- Claim C2, divergence of the code: a TrueWealth row whose type matches no
classification rule (here `"Deposit"`) is not ignored and not dropped — the
run still succeeds and appends one activity whose `type` is the `undefined`
result of the enum lookup, a value outside the closed enumeration. -/
theorem C2_code_divergence :
    (TrueWealth.processFileContents cfg₀ strId chfResolver "t" twDepositInput).isSuccess
      = true ∧
    (TrueWealth.processFileContents cfg₀ strId chfResolver "t"
        twDepositInput).deliveredActivities.map Activity.type
      = [(none : Option GhostfolioOrderType)] ∧
    TrueWealth.castType "Deposit" = none ∧
    ghostfolioOrderTypeLookup "Deposit" = none :=
  ⟨by decide, by decide, by decide, by decide⟩

/-! ### Shared facts about the Bitpanda asset dispatch -/

/-- The metal lookup falls back to the raw asset identifier when the
resolver throws. -/
theorem Bitpanda.metalSymbol_of_error (resolver : Resolver) (record : BitpandaRecord)
    (e : String) (h : resolver none none (some record.asset) none = Except.error e) :
    metalSymbol resolver record = record.asset := by
  unfold metalSymbol
  rw [h]

/-- The metal lookup falls back to the raw asset identifier when the
resolver returns no result. -/
theorem Bitpanda.metalSymbol_of_none (resolver : Resolver) (record : BitpandaRecord)
    (h : resolver none none (some record.asset) none = Except.ok none) :
    metalSymbol resolver record = record.asset := by
  unfold metalSymbol
  rw [h]

/-- The asset dispatch on a cryptocurrency record. -/
theorem Bitpanda.deriveAsset_crypto (resolver : Resolver) (r : BitpandaRecord)
    (h : lowerStr r.assetClass = "cryptocurrency") :
    deriveAsset resolver r =
      (mapBitpandaSymbolToYahoo r.asset ++ "USD", r.amountAsset, r.assetMarketPrice) := by
  unfold deriveAsset
  dsimp only
  rw [h, if_pos rfl]

/-- The asset dispatch on a metal record. -/
theorem Bitpanda.deriveAsset_metal (resolver : Resolver) (r : BitpandaRecord)
    (h : lowerStr r.assetClass = "metal") :
    deriveAsset resolver r =
      (metalSymbol resolver r, gramsToTroyOunces r.amountAsset,
        jsMul r.assetMarketPrice troyOunceInGrams) := by
  unfold deriveAsset
  dsimp only
  rw [h, if_neg (by decide), if_neg (by decide), if_pos rfl]

/-- On every non-metal record the dispatch passes quantity and unit price
through unchanged. -/
theorem Bitpanda.deriveAsset_nonmetal (resolver : Resolver) (r : BitpandaRecord)
    (h : lowerStr r.assetClass ≠ "metal") :
    (deriveAsset resolver r).2.1 = r.amountAsset ∧
    (deriveAsset resolver r).2.2 = r.assetMarketPrice := by
  by_cases h1 : lowerStr r.assetClass = "cryptocurrency"
  · rw [deriveAsset_crypto resolver r h1]
    exact ⟨rfl, rfl⟩
  · by_cases h2 : lowerStr r.assetClass = "stock (derivative)"
    · have hd : deriveAsset resolver r = (r.asset, r.amountAsset, r.assetMarketPrice) := by
        unfold deriveAsset
        dsimp only
        rw [if_neg h1, if_pos h2]
      rw [hd]
      exact ⟨rfl, rfl⟩
    · have hd : deriveAsset resolver r = (r.asset, r.amountAsset, r.assetMarketPrice) := by
        unfold deriveAsset
        dsimp only
        rw [if_neg h1, if_neg h2, if_neg h]
      rw [hd]
      exact ⟨rfl, rfl⟩

/-- For every non-ignored, classified record, the last activity appended is
the asset-side activity, carrying exactly the values of the asset
dispatch. -/
theorem Bitpanda.processRecord_assetActivity (cfg : ConverterConfig)
    (fmtDate : String → String) (resolver : Resolver) (r : BitpandaRecord) (t : String)
    (hig : isIgnoredRecord r = false) (ht : determineType r = some t) :
    ∃ rest a, processRecord cfg fmtDate resolver r = rest ++ [a] ∧
      a.quantity = (deriveAsset resolver r).2.1 ∧
      a.unitPrice = (deriveAsset resolver r).2.2 ∧
      a.symbol = (deriveAsset resolver r).1 ∧
      a.currency = jsOr r.assetMarketPriceCurrency r.fiat ∧
      a.dataSource = "YAHOO" := by
  by_cases hti : t = "interest"
  · subst hti
    have hpr : processRecord cfg fmtDate resolver r =
        [{ accountId := cfg.accountId, comment := "Staking reward " ++ r.asset,
           fee := r.fee, quantity := some 1,
           type := ghostfolioOrderTypeLookup "interest", unitPrice := r.amountFiat,
           currency := r.fiat, dataSource := "MANUAL", date := fmtDate r.timestamp,
           symbol := cfg.stakingRewardAssetId },
         { accountId := cfg.accountId, comment := "", fee := some 0,
           quantity := (deriveAsset resolver r).2.1,
           type := ghostfolioOrderTypeLookup "buy",
           unitPrice := (deriveAsset resolver r).2.2,
           currency := jsOr r.assetMarketPriceCurrency r.fiat, dataSource := "YAHOO",
           date := fmtDate r.timestamp, symbol := (deriveAsset resolver r).1 }] := by
      unfold processRecord
      rw [if_neg (by simp [hig]), ht]
      rfl
    exact ⟨[_], _, hpr, rfl, rfl, rfl, rfl, rfl⟩
  · have hpr : processRecord cfg fmtDate resolver r =
        [{ accountId := cfg.accountId, comment := "", fee := r.fee,
           quantity := (deriveAsset resolver r).2.1,
           type := ghostfolioOrderTypeLookup t,
           unitPrice := (deriveAsset resolver r).2.2,
           currency := jsOr r.assetMarketPriceCurrency r.fiat, dataSource := "YAHOO",
           date := fmtDate r.timestamp, symbol := (deriveAsset resolver r).1 }] := by
      unfold processRecord
      rw [if_neg (by simp [hig]), ht]
      show (if t = "interest" then _ else _) = _
      rw [if_neg hti]
      rfl
    exact ⟨[], _, hpr, rfl, rfl, rfl, rfl, rfl⟩

/-! ### Claim C3 -/

/-- Claim C3, amended: every non-ignored reward row expands into exactly two
adjacent activities sharing the same formatted date — first the MANUAL
fiat booking (quantity 1, unit price the fiat reward amount, currency the
fiat currency, symbol the configured reward-asset identifier), then a buy of
the rewarded asset whose currency is the market-price currency or, when that
is empty, the fiat currency.  The buy carries the row's asset quantity and
asset market price verbatim except for metal assets, where the grams-to-troy-
ounce conversion of the asset dispatch applies. -/
theorem C3_reward_two_activities :
    ∀ (cfg : ConverterConfig) (fmtDate : String → String) (resolver : Resolver)
      (r : BitpandaRecord),
      Bitpanda.isIgnoredRecord r = false →
      lowerStr r.transactionType = "reward" →
      ∃ a₂ : Activity,
        Bitpanda.processRecord cfg fmtDate resolver r =
          [{ accountId := cfg.accountId, comment := "Staking reward " ++ r.asset,
             fee := r.fee, quantity := some 1, type := some GhostfolioOrderType.interest,
             unitPrice := r.amountFiat, currency := r.fiat, dataSource := "MANUAL",
             date := fmtDate r.timestamp, symbol := cfg.stakingRewardAssetId }, a₂] ∧
        a₂.type = some GhostfolioOrderType.buy ∧
        a₂.date = fmtDate r.timestamp ∧
        a₂.dataSource = "YAHOO" ∧
        a₂.currency = jsOr r.assetMarketPriceCurrency r.fiat ∧
        a₂.symbol = (Bitpanda.deriveAsset resolver r).1 ∧
        (lowerStr r.assetClass ≠ "metal" →
          a₂.quantity = r.amountAsset ∧ a₂.unitPrice = r.assetMarketPrice) ∧
        (lowerStr r.assetClass = "metal" →
          a₂.quantity = Bitpanda.gramsToTroyOunces r.amountAsset ∧
          a₂.unitPrice = jsMul r.assetMarketPrice Bitpanda.troyOunceInGrams) := by
  intro cfg fmtDate resolver r hig hrw
  have hdet : Bitpanda.determineType r = some "interest" := by
    unfold Bitpanda.determineType
    rw [hrw]
    rfl
  refine ⟨{ accountId := cfg.accountId, comment := "", fee := some 0,
            quantity := (Bitpanda.deriveAsset resolver r).2.1,
            type := some GhostfolioOrderType.buy,
            unitPrice := (Bitpanda.deriveAsset resolver r).2.2,
            currency := jsOr r.assetMarketPriceCurrency r.fiat, dataSource := "YAHOO",
            date := fmtDate r.timestamp, symbol := (Bitpanda.deriveAsset resolver r).1 },
          ?_, rfl, rfl, rfl, rfl, rfl, ?_, ?_⟩
  · unfold Bitpanda.processRecord
    rw [if_neg (by simp [hig]), hdet]
    rfl
  · intro hnm
    exact Bitpanda.deriveAsset_nonmetal resolver r hnm
  · intro hm
    rw [Bitpanda.deriveAsset_metal resolver r hm]
    exact ⟨rfl, rfl⟩

set_option maxRecDepth 10000 in
/-- Witness for C3: the amended theorem applied to a concrete cryptocurrency
reward record yields its two activities. -/
theorem C3_witness :
    (Bitpanda.processRecord cfg₀ strId chfResolver bpCryptoRewardRecord).length = 2 := by
  obtain ⟨a₂, hpr, -⟩ :=
    C3_reward_two_activities cfg₀ strId chfResolver bpCryptoRewardRecord
      (by decide) (by decide)
  rw [hpr]
  rfl

set_option maxRecDepth 10000 in
/-- Counterexample to C3 as stated: on a metal reward row the second
activity's quantity is the troy-ounce conversion, not the row's raw asset
quantity. -/
theorem C3_counterexample :
    (Bitpanda.processRecord cfg₀ strId noneResolver bpMetalRewardRecord).map Activity.quantity
      = [some 1, some 2] ∧
    bpMetalRewardRecord.amountAsset = some (622069536 / 10000000) ∧
    ((Bitpanda.processRecord cfg₀ strId noneResolver bpMetalRewardRecord).map
        Activity.quantity).getD 1 none ≠ bpMetalRewardRecord.amountAsset :=
  ⟨by decide, by decide, by decide⟩

/-! ### Claim C7 -/

/-- Claim C7: on every non-ignored, classified metal row, the emitted
asset-side activity has quantity the gram amount divided by `31.1034768`,
unit price the per-gram price multiplied by `31.1034768`, and a symbol
obtained by the security lookup on the asset's display name, falling back
to the raw asset identifier when the lookup returns no result or throws. -/
theorem C7_metal_conversion :
    ∀ (cfg : ConverterConfig) (fmtDate : String → String) (resolver : Resolver)
      (r : BitpandaRecord),
      Bitpanda.isIgnoredRecord r = false →
      Bitpanda.determineType r ≠ none →
      lowerStr r.assetClass = "metal" →
      (∃ rest a, Bitpanda.processRecord cfg fmtDate resolver r = rest ++ [a] ∧
        a.quantity = jsDivC r.amountAsset Bitpanda.troyOunceInGrams ∧
        a.unitPrice = jsMul r.assetMarketPrice Bitpanda.troyOunceInGrams ∧
        a.symbol = Bitpanda.metalSymbol resolver r) ∧
      Bitpanda.troyOunceInGrams = 311034768 / 10000000 ∧
      (∀ e, resolver none none (some r.asset) none = Except.error e →
        Bitpanda.metalSymbol resolver r = r.asset) ∧
      (resolver none none (some r.asset) none = Except.ok none →
        Bitpanda.metalSymbol resolver r = r.asset) := by
  intro cfg fmtDate resolver r hig hd hm
  refine ⟨?_, rfl, fun e he => Bitpanda.metalSymbol_of_error resolver r e he,
    fun he => Bitpanda.metalSymbol_of_none resolver r he⟩
  obtain ⟨t, ht⟩ := Option.ne_none_iff_exists.mp hd
  obtain ⟨rest, a, hpr, hq, hu, hs, -, -⟩ :=
    Bitpanda.processRecord_assetActivity cfg fmtDate resolver r t hig ht.symm
  refine ⟨rest, a, hpr, ?_, ?_, ?_⟩
  · rw [hq, Bitpanda.deriveAsset_metal resolver r hm]
    rfl
  · rw [hu, Bitpanda.deriveAsset_metal resolver r hm]
  · rw [hs, Bitpanda.deriveAsset_metal resolver r hm]

set_option maxRecDepth 10000 in
/-- Witness for C7: the theorem applied to the concrete parsed metal row,
with a resolver that returns no result. -/
theorem C7_witness :
    Bitpanda.troyOunceInGrams = 311034768 / 10000000 ∧
    Bitpanda.metalSymbol noneResolver bpMetalBuyRecord = bpMetalBuyRecord.asset := by
  obtain ⟨-, htroy, -, hnone⟩ :=
    C7_metal_conversion cfg₀ strId noneResolver bpMetalBuyRecord
      (by decide) (by decide) (by decide)
  exact ⟨htroy, hnone rfl⟩

/-! ### Claim C10 -/

/-- Claim C10: on every non-ignored, classified cryptocurrency row, the
emitted asset-side activity's symbol is the asset identifier mapped through
the static rename table (exactly `POL ↦ MATIC`) suffixed with the literal
`USD`; the derivation reads neither the row's fiat currency nor its
asset-market-price currency. -/
theorem C10_crypto_symbol :
    ∀ (cfg : ConverterConfig) (fmtDate : String → String) (resolver : Resolver)
      (r : BitpandaRecord),
      Bitpanda.isIgnoredRecord r = false →
      Bitpanda.determineType r ≠ none →
      lowerStr r.assetClass = "cryptocurrency" →
      (∃ rest a, Bitpanda.processRecord cfg fmtDate resolver r = rest ++ [a] ∧
        a.symbol = Bitpanda.mapBitpandaSymbolToYahoo r.asset ++ "USD") ∧
      Bitpanda.mapBitpandaSymbolToYahoo "POL" = "MATIC" ∧
      (∀ s, s ≠ "POL" → Bitpanda.mapBitpandaSymbolToYahoo s = s) ∧
      (∀ f c, Bitpanda.deriveAsset resolver
          { r with fiat := f, assetMarketPriceCurrency := c }
        = Bitpanda.deriveAsset resolver r) := by
  intro cfg fmtDate resolver r hig hd hc
  refine ⟨?_, rfl, ?_, fun f c => rfl⟩
  · obtain ⟨t, ht⟩ := Option.ne_none_iff_exists.mp hd
    obtain ⟨rest, a, hpr, -, -, hs, -, -⟩ :=
      Bitpanda.processRecord_assetActivity cfg fmtDate resolver r t hig ht.symm
    exact ⟨rest, a, hpr, by rw [hs, Bitpanda.deriveAsset_crypto resolver r hc]⟩
  · intro s hs
    unfold Bitpanda.mapBitpandaSymbolToYahoo
    rw [if_neg hs]

set_option maxRecDepth 10000 in
/-- Witness for C10: the theorem applied to the concrete cryptocurrency
reward record. -/
theorem C10_witness :
    Bitpanda.mapBitpandaSymbolToYahoo "POL" = "MATIC" ∧
    Bitpanda.mapBitpandaSymbolToYahoo "BTC" = "BTC" := by
  obtain ⟨-, hpol, hother, -⟩ :=
    C10_crypto_symbol cfg₀ strId chfResolver bpCryptoRewardRecord
      (by decide) (by decide) (by decide)
  exact ⟨hpol, hother "BTC" (by decide)⟩

/-! ### Claim C8 -/

set_option maxRecDepth 10000 in
/-- Claim C8, divergence of the code: the column schema is indeed the
hard-coded list, independent of the file text; but csv-parse `fromLine` is
1-based and inclusive, so with `fromLine: 8` the file's own header — which
the code's own `headerLineIdx` constant places on 1-based line 8 — is
tokenized as the first data record instead of being skipped. -/
theorem C8_divergence :
    (∀ input₁ input₂ : String, Bitpanda.processHeaders input₁ = Bitpanda.processHeaders input₂) ∧
    (splitLines bpMetalInput).get? Bitpanda.headerLineIdx = some bpHeaderLine ∧
    (Bitpanda.parsedRecords bpMetalInput).map (fun rs => rs.map BitpandaRecord.transactionType)
      = .ok ["Transaction Type", "Buy"] :=
  ⟨fun _ _ => rfl, by decide, by decide⟩

/-! ### Claim C6 -/

theorem data_append (a b : String) : (a ++ b).data = a.data ++ b.data := rfl

theorem splitOnCharList_ne_nil (sep : Char) (l : List Char) : splitOnCharList sep l ≠ [] := by
  induction l with
  | nil => simp [splitOnCharList]
  | cons c rest ih =>
    unfold splitOnCharList
    by_cases hc : c = sep
    · simp [hc]
    · rw [if_neg hc]
      rcases hs : splitOnCharList sep rest with _ | ⟨x, xs⟩
      · exact absurd hs ih
      · simp

/-- Appending a separator and one non-separator character appends one
one-character field. -/
theorem splitOnCharList_append_sep (sep c : Char) (hc : ¬c = sep) (xs : List Char) :
    splitOnCharList sep (xs ++ [sep, c]) = splitOnCharList sep xs ++ [[c]] := by
  induction xs with
  | nil => simp [splitOnCharList, hc]
  | cons x xs ih =>
    by_cases hx : x = sep
    · subst hx
      simp only [List.cons_append]
      unfold splitOnCharList
      rw [if_pos rfl, if_pos rfl, ih, List.cons_append]
    · simp only [List.cons_append]
      unfold splitOnCharList
      rw [if_neg hx, if_neg hx, ih]
      rcases hys : splitOnCharList sep xs with _ | ⟨y, ys⟩
      · exact absurd hys (splitOnCharList_ne_nil sep xs)
      · simp

/-- Padding a line with `k` copies of `",-"` appends `k` placeholder
fields. -/
theorem chSplit_pad (l : String) (k : Nat) :
    chSplit ',' (l ++ repeatStr k ",-") = chSplit ',' l ++ List.replicate k "-" := by
  induction k generalizing l with
  | zero =>
    have hd : (l ++ repeatStr 0 ",-").data = l.data := by
      simp [data_append, repeatStr]
    simp [chSplit, hd]
  | succ k ih =>
    have hstr : (l ++ repeatStr (k + 1) ",-").data = ((l ++ ",-") ++ repeatStr k ",-").data := by
      simp [data_append, repeatStr, List.replicate_succ]
    have hsame : chSplit ',' (l ++ repeatStr (k + 1) ",-")
        = chSplit ',' ((l ++ ",-") ++ repeatStr k ",-") := by
      unfold chSplit
      rw [hstr]
    rw [hsame, ih]
    have h2 : chSplit ',' (l ++ ",-") = chSplit ',' l ++ ["-"] := by
      unfold chSplit
      have hd : (l ++ ",-").data = l.data ++ [',', '-'] := data_append l ",-"
      rw [hd, splitOnCharList_append_sep ',' '-' (by decide) l.data]
      simp
    rw [h2, List.append_assoc]
    simp [List.replicate_succ]

/-- The fields of a padded short line are the original fields followed by
placeholder `"-"` fields up to the expected column count. -/
theorem Bitpanda.padLine_fields (l : String) (hb : blankLine l = false)
    (hlen : (chSplit ',' l).length < 18) :
    chSplit ',' (padLine 18 l)
      = chSplit ',' l ++ List.replicate (18 - (chSplit ',' l).length) "-" := by
  unfold padLine
  rw [if_neg (by simp [hb])]
  dsimp only
  rw [if_pos hlen]
  exact chSplit_pad l _

/-- The preprocessing loop rewrites exactly the lines at running index
`headerLineIdx + 1` or beyond, padding each such line. -/
theorem Bitpanda.preprocessLinesAux_get (expected : Nat) :
    ∀ (lines : List String) (j i : Nat) (l : String),
      lines.get? i = some l →
      (preprocessLinesAux expected j lines).get? i
        = some (if headerLineIdx + 1 ≤ i + j then padLine expected l else l) := by
  intro lines
  induction lines with
  | nil =>
    intro j i l h
    simp at h
  | cons x xs ih =>
    intro j i l h
    cases i with
    | zero =>
      simp only [List.get?] at h
      injection h with h
      subst h
      simp [preprocessLinesAux]
    | succ i =>
      simp only [List.get?] at h
      have hx := ih (j + 1) i l h
      have harith : i + (j + 1) = i + 1 + j := by omega
      rw [harith] at hx
      simpa [preprocessLinesAux] using hx

set_option maxRecDepth 10000 in
/-- Claim C6, amended: the Bitpanda converter pads every data line (running
index at least `headerLineIdx + 1`) that is non-blank and shorter than the
18-column schema with `"-"` placeholders before the tokenizer runs, and the
cast maps the placeholder to `0`; the TrueWealth converter performs no such
padding — its parse sees the raw text, and a row whose field count differs
from the header fails the whole parse with `Invalid Record Length`. -/
theorem C6_short_row_padding :
    (∀ (lines : List String) (i : Nat) (l : String),
      lines.get? i = some l →
      (Bitpanda.preprocessLinesAux 18 0 lines).get? i
        = some (if Bitpanda.headerLineIdx + 1 ≤ i then Bitpanda.padLine 18 l else l)) ∧
    (∀ l : String, blankLine l = false → (chSplit ',' l).length < 18 →
      chSplit ',' (Bitpanda.padLine 18 l)
        = chSplit ',' l ++ List.replicate (18 - (chSplit ',' l).length) "-") ∧
    Bitpanda.castNum "-" = some 0 ∧
    (∀ (cfg : ConverterConfig) (fmtDate : String → String) (resolver : Resolver)
      (now input l : String),
      l ∈ dropTrailingBlankLines ((splitLines input).drop 1) →
      (chSplit ',' l).length ≠ (TrueWealth.processHeaders input).length →
      TrueWealth.processFileContents cfg fmtDate resolver now input
        = .parseFailed "An error ocurred while parsing! Details: Invalid Record Length") := by
  refine ⟨?_, Bitpanda.padLine_fields, by decide, ?_⟩
  · intro lines i l h
    have hx := Bitpanda.preprocessLinesAux_get 18 lines 0 i l h
    simpa using hx
  · intro cfg fmtDate resolver now input l hmem hlen
    have hall : (dropTrailingBlankLines ((splitLines input).drop 1)).all
        (fun l' => (chSplit ',' l').length = (TrueWealth.processHeaders input).length) = false := by
      cases hres : (dropTrailingBlankLines ((splitLines input).drop 1)).all
          (fun l' => (chSplit ',' l').length = (TrueWealth.processHeaders input).length) with
      | false => rfl
      | true =>
        have := List.all_eq_true.mp hres l hmem
        exact absurd (of_decide_eq_true this) hlen
    have hpr : parseRecords 2 (TrueWealth.processHeaders input).length
        (TrueWealth.buildRecord (TrueWealth.processHeaders input)) input
        = .error "Invalid Record Length" := by
      unfold parseRecords
      dsimp only
      rw [if_neg (fun hcontra => by rw [hall] at hcontra; exact Bool.false_ne_true hcontra)]
    unfold TrueWealth.processFileContents
    rw [hpr]
    rfl

set_option maxRecDepth 10000 in
/-- Witness for C6: the amended theorem applied to a concrete Bitpanda line
list with an 11-field data row at index 8, and to the concrete short-row
TrueWealth file. -/
theorem C6_witness :
    (Bitpanda.preprocessLinesAux 18 0 bpShortLines).get? 8
      = some (Bitpanda.padLine 18 bpShortRow) ∧
    chSplit ',' (Bitpanda.padLine 18 bpShortRow)
      = chSplit ',' bpShortRow ++ List.replicate 7 "-" ∧
    TrueWealth.processFileContents cfg₀ strId chfResolver "t" twShortInput
      = .parseFailed "An error ocurred while parsing! Details: Invalid Record Length" := by
  refine ⟨?_, ?_, ?_⟩
  · have h := C6_short_row_padding.1 bpShortLines 8 bpShortRow (by decide)
    rw [h]
    rfl
  · have h := C6_short_row_padding.2.1 bpShortRow (by decide) (by decide)
    rw [h]
    decide
  · exact C6_short_row_padding.2.2.2 cfg₀ strId chfResolver "t" twShortInput
      "2024-01-02,Buy,CHF,10,5,50,0" (by decide) (by decide)

set_option maxRecDepth 10000 in
/-- Counterexample to C6 as stated: the TrueWealth converter does not pad a
short data row — the whole run fails with a parse error instead of
normalizing the missing numeric fields to zero. -/
theorem C6_counterexample :
    (chSplit ',' "2024-01-02,Buy,CHF,10,5,50,0").length = 7 ∧
    (TrueWealth.processHeaders twShortInput).length = 12 ∧
    TrueWealth.processFileContents cfg₀ strId chfResolver "t" twShortInput
      = .parseFailed "An error ocurred while parsing! Details: Invalid Record Length" :=
  ⟨by decide, by decide, by decide⟩
